import Mathlib

/-
Shallow embedding of the fruit-ninja-cv game engine
(src/src/hooks/useGameEngine.ts, with src/js/game.js for the legacy
persistence path and src/unnamed/part_004 for the shared type/constant
definitions).

Modelling conventions:
* JavaScript numbers carrying positions, velocities, radii and random
  rolls are modelled as exact rationals (ℚ).  `Math.sqrt` is modelled by
  `jsSqrt` (exact on perfect squares, integer-square-root approximation
  otherwise — every property proved below depends on its value only at
  perfect-square inputs, where it agrees with the exact square root) and
  `Math.atan2` is passed in as an explicit function parameter, since its
  result is only stored on sliced-half entities for rendering.
* JavaScript division is modelled by `jdiv`, which produces the IEEE
  special values (NaN, ±Infinity) on division by zero; comparisons
  against NaN are false, as in JavaScript.
* `Date.now()` timestamps are natural numbers (milliseconds).
* `Math.random()` draws are threaded explicitly: each random-consuming
  function receives the rolls it performs as parameters (a `Nat → ℚ`
  stream or a record of named rolls), in source order.
* `generateId` (a random 9-character string, unique with overwhelming
  probability) is modelled by a monotone counter `nextId`.
* `setTimeout`-deferred spawn callbacks are modelled as `PendingSpawn`
  entries appended to a queue; a closure that guards on the captured
  `gameState` stores that captured value in the entry.  Firing an entry
  is `firePendingSpawn`.
* React `setXxx(prev => ...)` functional updates make sequential state
  passing exact for the entity lists and stats.  Plain closure reads
  (the entity arrays iterated by `checkCollisions`, `activeEffect`)
  see the render-time snapshot: `checkCollisions` therefore iterates the
  lists of its *entry* state while the accumulator evolves.
* The purely cosmetic `Particle` and `ScorePopup` collections (random
  velocities/colors, never read by any game-logic decision) are outside
  the embedded fragment; `localStorage` is modelled by `Storage`, which
  records the stored value and the log of performed writes.
-/

namespace FruitNinjaCV

/-- Fruit kinds, from FRUIT_TYPES / the FruitType union. -/
inductive FruitType
  | apple
  | orange
  | watermelon
  | banana
  | pineapple
  | strawberry
  deriving DecidableEq, Repr

/-- Power-up kinds, from the SpecialFruitType union. -/
inductive SpecialFruitType
  | frenzy
  | freeze
  deriving DecidableEq, Repr

/-- Top-level game states, from the GameState union. -/
inductive GameState
  | menu
  | playing
  | gameover
  deriving DecidableEq, Repr

/-- Which half of a sliced fruit an entity is. -/
inductive Half
  | left
  | right
  deriving DecidableEq, Repr

/-- Point values per fruit kind (FRUIT_POINTS). -/
def FRUIT_POINTS : FruitType → Nat
  | .apple => 1
  | .orange => 1
  | .watermelon => 2
  | .banana => 1
  | .pineapple => 2
  | .strawberry => 1

/-- Spawn pool, in source order (FRUIT_TYPES). -/
def FRUIT_TYPES : List FruitType :=
  [.apple, .orange, .watermelon, .banana, .pineapple, .strawberry]

def GRAVITY : ℚ := 2/5
def INITIAL_LIVES : Int := 3
def SPAWN_INTERVAL_BASE : Nat := 1500
def SPAWN_INTERVAL_MIN : Nat := 600
def BOMB_CHANCE_BASE : ℚ := 15/100
def BOMB_CHANCE_MAX : ℚ := 35/100
def SLICED_FRUIT_LIFETIME : Nat := 1500
def COMBO_WINDOW : Nat := 800
def SPECIAL_FRUIT_CHANCE : ℚ := 8/100
def SPECIAL_FRUIT_MIN_WAVE : Nat := 1
def GUARANTEED_SPECIAL_INTERVAL : Nat := 15
def CRITICAL_THROW_CHANCE : ℚ := 12/100

/-- JavaScript number results that can be non-finite: a finite rational,
NaN, or a signed infinity. -/
inductive JNum
  | num (q : ℚ)
  | nan
  | pinf
  | ninf
  deriving DecidableEq, Repr

/-- JavaScript division of finite operands: division by zero yields NaN
(for 0/0) or a signed infinity, never an exception. -/
def jdiv (x y : ℚ) : JNum :=
  if y = 0 then
    if x = 0 then .nan else if 0 < x then .pinf else .ninf
  else .num (x / y)

/-- The test `t >= 0 && t <= 1` under JavaScript comparison semantics:
any comparison against NaN is false, and no infinity lies in [0,1]. -/
def jIn01 : JNum → Bool
  | .num t => decide (0 ≤ t) && decide (t ≤ 1)
  | .nan => false
  | .pinf => false
  | .ninf => false

/-- Model of Math.sqrt on the nonnegative rationals: for q = a/b this is
isqrt(a*b)/b, which is the exact square root whenever a*b is a perfect
square (in particular jsSqrt 0 = 0) and an integer-square-root
approximation otherwise, mirroring the fact that Math.sqrt is itself
approximate. -/
def jsSqrt (q : ℚ) : ℚ :=
  (Nat.sqrt (q.num.toNat * q.den) : ℚ) / (q.den : ℚ)

/-- Segment-vs-circle intersection test (useGameEngine.ts lines 40-64):
solves the quadratic for the parameter t along the segment and reports a
hit when a root lies in [0,1].  The two root computations divide by 2a,
which is 0 for a degenerate (zero-length) segment. -/
def lineCircleIntersection (x1 y1 x2 y2 cx cy r : ℚ) : Bool :=
  let dx := x2 - x1
  let dy := y2 - y1
  let fx := x1 - cx
  let fy := y1 - cy
  let a := dx * dx + dy * dy
  let b := 2 * (fx * dx + fy * dy)
  let c := (fx * fx + fy * fy) - r * r
  let discriminant := b * b - 4 * a * c
  if discriminant < 0 then false
  else
    let d := jsSqrt discriminant
    let t1 := jdiv (-b - d) (2 * a)
    let t2 := jdiv (-b + d) (2 * a)
    jIn01 t1 || jIn01 t2

/-- A whole fruit projectile (the Fruit interface). -/
structure Fruit where
  id : Nat
  type : FruitType
  x : ℚ
  y : ℚ
  velocityX : ℚ
  velocityY : ℚ
  rotation : ℚ
  rotationSpeed : ℚ
  radius : ℚ
  sliced : Bool
  deriving DecidableEq, Repr

/-- A bomb projectile (the Bomb interface). -/
structure Bomb where
  id : Nat
  x : ℚ
  y : ℚ
  velocityX : ℚ
  velocityY : ℚ
  rotation : ℚ
  rotationSpeed : ℚ
  radius : ℚ
  sliced : Bool
  deriving DecidableEq, Repr

/-- A power-up projectile (the SpecialFruit interface). -/
structure SpecialFruit where
  id : Nat
  specialType : SpecialFruitType
  x : ℚ
  y : ℚ
  velocityX : ℚ
  velocityY : ℚ
  rotation : ℚ
  rotationSpeed : ℚ
  radius : ℚ
  deriving DecidableEq, Repr

/-- One half of a sliced fruit (the SlicedFruit interface). -/
structure SlicedFruit where
  id : Nat
  type : FruitType
  x : ℚ
  y : ℚ
  velocityX : ℚ
  velocityY : ℚ
  rotation : ℚ
  rotationSpeed : ℚ
  radius : ℚ
  half : Half
  sliceAngle : ℚ
  createdAt : Nat
  deriving DecidableEq, Repr

/-- A point of the blade trail (the BladePoint interface). -/
structure BladePoint where
  x : ℚ
  y : ℚ
  timestamp : Nat
  deriving DecidableEq, Repr

/-- The aggregate score state (the GameStats interface). -/
structure GameStats where
  score : Nat
  lives : Int
  combo : Nat
  maxCombo : Nat
  fruitsSliced : Nat
  highScore : Nat
  deriving DecidableEq, Repr

/-- Model of the browser localStorage slot holding the high score:
the currently stored value plus the log of setItem calls performed. -/
structure Storage where
  stored : Nat
  writes : List Nat
  deriving DecidableEq, Repr

/-- A successful localStorage.setItem for the high-score key. -/
def setItem (s : Storage) (v : Nat) : Storage :=
  { stored := v, writes := s.writes ++ [v] }

/-- A fallible localStorage.setItem: storage being unavailable raises,
modelled as an error result. -/
def setItemE (storageOk : Bool) (s : Storage) (v : Nat) : Except Unit Storage :=
  if storageOk then .ok (setItem s v) else .error ()

/-- A setTimeout-scheduled spawn callback that has not fired yet.
`guardCaptured = some s` models a closure body that tests its captured
`gameState` value `s` against 'playing' before spawning (activateFrenzy);
`none` models a callback with no such test (the staggered batch spawns in
updatePhysics). -/
structure PendingSpawn where
  delay : Nat
  guardCaptured : Option GameState
  deriving DecidableEq, Repr

/-- The full engine state of useGameEngine: React state, the mutable
refs, the storage slot and the queue of scheduled spawn callbacks. -/
structure EngineState where
  gameState : GameState
  stats : GameStats
  fruits : List Fruit
  bombs : List Bomb
  specialFruits : List SpecialFruit
  slicedFruits : List SlicedFruit
  bombFlash : Bool
  activeEffect : Option SpecialFruitType
  timeScale : ℚ
  lastSpawn : Nat
  lastComboTime : Nat
  wave : Nat
  spawnsSinceSpecial : Nat
  currentWave : Nat
  showWaveAnnouncement : Bool
  criticalFlash : Bool
  storage : Storage
  pending : List PendingSpawn
  nextId : Nat
  deriving DecidableEq, Repr

/-- spawnFruit (useGameEngine.ts lines 96-116).  The seven Math.random()
draws are supplied by the stream `r` in source order: fruit type, spawn
x, target x, horizontal jitter, upward speed, rotation, spin. -/
def spawnFruit (r : Nat → ℚ) (W H : ℚ) (st : EngineState) : EngineState :=
  let type := FRUIT_TYPES.getD (Int.floor (r 0 * 6)).toNat FruitType.apple
  let spawnX := r 1 * (W - 100) + 50
  let targetX := W / 2 + (r 2 - 1/2) * W * (1/2)
  let velocityX := (targetX - spawnX) * (2/100) + (r 3 - 1/2) * 2
  let fruit : Fruit :=
    { id := st.nextId
      type := type
      x := spawnX
      y := H + 50
      velocityX := velocityX
      velocityY := -(14 + r 4 * 6 + (st.wave : ℚ) * (1/2))
      rotation := r 5 * 360
      rotationSpeed := (r 6 - 1/2) * 8
      radius := if type = .watermelon ∨ type = .pineapple then 50 else 35
      sliced := false }
  { st with fruits := st.fruits ++ [fruit], nextId := st.nextId + 1 }

/-- spawnBomb (useGameEngine.ts lines 118-136). -/
def spawnBomb (r : Nat → ℚ) (W H : ℚ) (st : EngineState) : EngineState :=
  let spawnX := r 0 * (W - 100) + 50
  let targetX := W / 2 + (r 1 - 1/2) * W * (1/2)
  let velocityX := (targetX - spawnX) * (2/100) + (r 2 - 1/2) * 2
  let bomb : Bomb :=
    { id := st.nextId
      x := spawnX
      y := H + 50
      velocityX := velocityX
      velocityY := -(14 + r 3 * 5)
      rotation := r 4 * 360
      rotationSpeed := (r 5 - 1/2) * 6
      radius := 40
      sliced := false }
  { st with bombs := st.bombs ++ [bomb], nextId := st.nextId + 1 }

/-- spawnSpecialFruit (useGameEngine.ts lines 139-157). -/
def spawnSpecialFruit (r : Nat → ℚ) (W H : ℚ) (type : SpecialFruitType)
    (st : EngineState) : EngineState :=
  let spawnX := r 0 * (W - 100) + 50
  let targetX := W / 2 + (r 1 - 1/2) * W * (3/10)
  let special : SpecialFruit :=
    { id := st.nextId
      specialType := type
      x := spawnX
      y := H + 50
      velocityX := (targetX - spawnX) * (2/100)
      velocityY := -(14 + r 2 * 4)
      rotation := r 3 * 360
      rotationSpeed := (r 4 - 1/2) * 6
      radius := 45 }
  { st with specialFruits := st.specialFruits ++ [special], nextId := st.nextId + 1 }

/-- The host timer firing one scheduled spawn callback.  A callback from
activateFrenzy tests the gameState value captured in its closure; a
batch-spawn callback from updatePhysics runs spawnFruit unconditionally. -/
def firePendingSpawn (r : Nat → ℚ) (W H : ℚ) (p : PendingSpawn)
    (st : EngineState) : EngineState :=
  match p.guardCaptured with
  | none => spawnFruit r W H st
  | some s => if s = GameState.playing then spawnFruit r W H st else st

/-- activateFrenzy (useGameEngine.ts lines 160-183): slow motion plus a
burst of 16 staggered fruit spawns.  Each scheduled closure tests the
gameState value it captured when scheduled, recorded in the entry.  The
4-second effect-expiry timer is outside the embedded fragment. -/
def activateFrenzy (st : EngineState) : EngineState :=
  { st with
    activeEffect := some .frenzy
    timeScale := 3/10
    pending := st.pending ++
      (List.range 16).map (fun i =>
        { delay := i * 80, guardCaptured := some st.gameState }) }

/-- activateFreeze (useGameEngine.ts lines 186-199).  The 3-second
effect-expiry timer is outside the embedded fragment. -/
def activateFreeze (st : EngineState) : EngineState :=
  { st with activeEffect := some .freeze, timeScale := 1/5 }

/-- createSlicedFruit (useGameEngine.ts lines 227-259): appends the two
half entities for a sliced fruit.  The velocity split is the fixed
offset (-3, +3) on velocityX; both halves take velocityY - 2; the slice
angle is stored unchanged. -/
def createSlicedFruit (now : Nat) (st : EngineState) (fruit : Fruit)
    (sliceAngle : ℚ) : EngineState :=
  let leftHalf : SlicedFruit :=
    { id := st.nextId
      type := fruit.type
      x := fruit.x
      y := fruit.y
      velocityX := fruit.velocityX - 3
      velocityY := fruit.velocityY - 2
      rotation := fruit.rotation
      rotationSpeed := -8
      radius := fruit.radius
      half := .left
      sliceAngle := sliceAngle
      createdAt := now }
  let rightHalf : SlicedFruit :=
    { id := st.nextId + 1
      type := fruit.type
      x := fruit.x
      y := fruit.y
      velocityX := fruit.velocityX + 3
      velocityY := fruit.velocityY - 2
      rotation := fruit.rotation
      rotationSpeed := 8
      radius := fruit.radius
      half := .right
      sliceAngle := sliceAngle
      createdAt := now }
  { st with
    slicedFruits := st.slicedFruits ++ [leftHalf, rightHalf]
    nextId := st.nextId + 2 }

/-- sliceSpecialFruit (useGameEngine.ts lines 274-317): flat +50 score,
removal from the live collection, and activation of the timed effect.
The golden/ice particles and the score popup are cosmetic and outside
the embedded fragment. -/
def sliceSpecialFruit (st : EngineState) (special : SpecialFruit) : EngineState :=
  let st1 :=
    { st with
      stats := { st.stats with score := st.stats.score + 50 }
      specialFruits := st.specialFruits.filter (fun s => s.id ≠ special.id) }
  if special.specialType = .frenzy then activateFrenzy st1 else activateFreeze st1

/-- sliceFruit (useGameEngine.ts lines 319-364): combo bookkeeping,
scoring with the capped combo multiplier, conditional high-score
persistence, creation of the two halves, and removal of the fruit from
the live collection. -/
def sliceFruit (now : Nat) (st : EngineState) (fruit : Fruit)
    (sliceAngle : ℚ) : EngineState :=
  let timeSinceLastSlice := now - st.lastComboTime
  let isPartOfCombo :=
    timeSinceLastSlice < COMBO_WINDOW ∧ 0 < st.lastComboTime
  let basePoints := FRUIT_POINTS fruit.type
  let newCombo := if isPartOfCombo then st.stats.combo + 1 else 1
  let comboMultiplier := min newCombo 8
  let points := basePoints * comboMultiplier
  let newScore := st.stats.score + points
  let newHighScore := max newScore st.stats.highScore
  let storage1 :=
    if st.stats.highScore < newHighScore then setItem st.storage newHighScore
    else st.storage
  let st1 :=
    { st with
      lastComboTime := now
      stats :=
        { st.stats with
          score := newScore
          combo := newCombo
          maxCombo := max newCombo st.stats.maxCombo
          fruitsSliced := st.stats.fruitsSliced + 1
          highScore := newHighScore }
      storage := storage1 }
  let st2 := createSlicedFruit now st1 fruit sliceAngle
  { st2 with fruits := st2.fruits.filter (fun f => f.id ≠ fruit.id) }

/-- sliceBomb (useGameEngine.ts lines 366-379): flash, lives hard-set to
0, conditional high-score persistence, transition to gameover.  The
300 ms flash-reset timer is outside the embedded fragment. -/
def sliceBomb (st : EngineState) : EngineState :=
  let newHighScore := max st.stats.score st.stats.highScore
  let storage1 :=
    if st.stats.highScore < newHighScore then setItem st.storage newHighScore
    else st.storage
  { st with
    bombFlash := true
    stats := { st.stats with lives := 0, highScore := newHighScore }
    storage := storage1
    gameState := .gameover }

/-- One physics step of a whole fruit (updatePhysics fruit pass). -/
def stepFruit (timeScale : ℚ) (f : Fruit) : Fruit :=
  { f with
    x := f.x + f.velocityX * timeScale
    y := f.y + f.velocityY * timeScale
    velocityY := f.velocityY + GRAVITY * timeScale
    rotation := f.rotation + f.rotationSpeed * timeScale }

/-- One physics step of a bomb (updatePhysics bomb pass). -/
def stepBomb (timeScale : ℚ) (b : Bomb) : Bomb :=
  { b with
    x := b.x + b.velocityX * timeScale
    y := b.y + b.velocityY * timeScale
    velocityY := b.velocityY + GRAVITY * timeScale
    rotation := b.rotation + b.rotationSpeed * timeScale }

/-- One physics step of a special fruit (updatePhysics special pass). -/
def stepSpecial (timeScale : ℚ) (s : SpecialFruit) : SpecialFruit :=
  { s with
    x := s.x + s.velocityX * timeScale
    y := s.y + s.velocityY * timeScale
    velocityY := s.velocityY + GRAVITY * timeScale
    rotation := s.rotation + s.rotationSpeed * timeScale }

/-- One physics step of a sliced-fruit half (updatePhysics pass). -/
def stepSliced (timeScale : ℚ) (sf : SlicedFruit) : SlicedFruit :=
  { sf with
    x := sf.x + sf.velocityX * timeScale
    y := sf.y + sf.velocityY * timeScale
    velocityY := sf.velocityY + GRAVITY * timeScale
    rotation := sf.rotation + sf.rotationSpeed * timeScale }

/-- The off-screen test for a stepped fruit (y > canvasHeight + 100). -/
def fruitMissed (H : ℚ) (f : Fruit) : Bool :=
  decide (H + 100 < f.y)

/-- Number of fruits that cross the lower bound in one tick. -/
def missedCount (H timeScale : ℚ) (fruits : List Fruit) : Nat :=
  ((fruits.map (stepFruit timeScale)).filter (fruitMissed H)).length

/-- The entity-advancing half of updatePhysics (useGameEngine.ts lines
415-509): moves every live entity, removes off-screen entities, counts
missed fruits and applies the batched life loss, triggering gameover and
the (unconditional) high-score write when lives reach 0.  Particles and
score popups are cosmetic and outside the embedded fragment. -/
def physicsPasses (H : ℚ) (now : Nat) (st : EngineState) : EngineState :=
  let stepped := st.fruits.map (stepFruit st.timeScale)
  let updated := stepped.filter (fun f => ! fruitMissed H f)
  let missed := (stepped.filter (fruitMissed H)).length
  let hit :=
    if 0 < missed then
      let newLives := st.stats.lives - (missed : Int)
      if newLives ≤ 0 then
        let newHighScore := max st.stats.score st.stats.highScore
        ({ st.stats with lives := 0, highScore := newHighScore },
         setItem st.storage newHighScore, GameState.gameover)
      else ({ st.stats with lives := newLives }, st.storage, st.gameState)
    else (st.stats, st.storage, st.gameState)
  { st with
    fruits := updated
    stats := hit.1
    storage := hit.2.1
    gameState := hit.2.2
    bombs := (st.bombs.map (stepBomb st.timeScale)).filter
      (fun b => decide (b.y < H + 100))
    specialFruits := (st.specialFruits.map (stepSpecial st.timeScale)).filter
      (fun s => decide (s.y < H + 100))
    slicedFruits := (st.slicedFruits.map (stepSliced st.timeScale)).filter
      (fun sf => decide (now - sf.createdAt < SLICED_FRUIT_LIFETIME)) }

/-- The Math.random() outcomes drawn by the spawn section of one
updatePhysics call, in source order. -/
structure UpdateRolls where
  rCrit : ℚ
  rCritCount : ℚ
  rFruitCount : ℚ
  rBomb : ℚ
  rSpecial : ℚ
  bombRand : Nat → ℚ
  specialRand : Nat → ℚ

/-- The spawn section of updatePhysics (useGameEngine.ts lines 511-565):
skipped during frenzy, gated on the wave-dependent interval; schedules
staggered fruit spawns (critical throw of 4-5 or a regular batch of
1-3 with an optional immediate bomb), rolls the special-fruit spawn, and
recomputes the wave.  The scheduled batch callbacks carry no game-state
guard, matching the plain setTimeout(() => spawnFruit(), ...) closures.
The flash-reset and announcement-reset timers are outside the embedded
fragment. -/
def spawnSection (W H : ℚ) (now : Nat) (rolls : UpdateRolls)
    (st : EngineState) : EngineState :=
  let spawnInterval := max SPAWN_INTERVAL_MIN (SPAWN_INTERVAL_BASE - st.wave * 100)
  if st.activeEffect ≠ some .frenzy ∧ spawnInterval < now - st.lastSpawn then
    let st2 := { st with
      lastSpawn := now
      spawnsSinceSpecial := st.spawnsSinceSpecial + 1 }
    let st3 :=
      if rolls.rCrit < CRITICAL_THROW_CHANCE then
        let criticalCount := 4 + (Int.floor (rolls.rCritCount * 2)).toNat
        { st2 with
          pending := st2.pending ++ (List.range criticalCount).map
            (fun i => { delay := i * 60, guardCaptured := none })
          criticalFlash := true }
      else
        let fruitCount :=
          1 + (Int.floor (rolls.rFruitCount * ((min 3 st.wave : Nat) : ℚ))).toNat
        let st3a := { st2 with
          pending := st2.pending ++ (List.range fruitCount).map
            (fun i => { delay := i * 100, guardCaptured := none }) }
        let bombChance :=
          min BOMB_CHANCE_MAX (BOMB_CHANCE_BASE + (st.wave : ℚ) * (3/100))
        if rolls.rBomb < bombChance then spawnBomb rolls.bombRand W H st3a
        else st3a
    let shouldSpawnSpecial :=
      (SPECIAL_FRUIT_MIN_WAVE ≤ st.wave ∧ rolls.rSpecial < SPECIAL_FRUIT_CHANCE) ∨
        GUARANTEED_SPECIAL_INTERVAL ≤ st2.spawnsSinceSpecial
    let st4 :=
      if shouldSpawnSpecial then
        { spawnSpecialFruit rolls.specialRand W H .freeze st3 with
          spawnsSinceSpecial := 0 }
      else st3
    let newWave := st.stats.fruitsSliced / 10 + 1
    if st.wave < newWave then
      { st4 with
        wave := newWave
        currentWave := newWave
        showWaveAnnouncement := true }
    else st4
  else st

/-- updatePhysics: the physics passes followed by the spawn section.
The scalars the spawn section reads through its closure (wave and
spawn refs, activeEffect, stats.fruitsSliced) are unchanged by the
physics passes, so reading them from the passed-through state is exact. -/
def updatePhysics (W H : ℚ) (now : Nat) (rolls : UpdateRolls)
    (st : EngineState) : EngineState :=
  spawnSection W H now rolls (physicsPasses H now st)

/-- checkCollisions (useGameEngine.ts lines 381-413): for each of the
last (at most) four trail segments, tests every captured fruit, special
fruit and bomb, dispatching slice handlers.  The iterated entity arrays
and the activeEffect gate are the closure-captured render snapshot — the
entry state — while the accumulator state evolves; in particular the
fruit records iterated (and their sliced flags) never change during the
pass.  `at2` models Math.atan2 (its value is only stored for rendering). -/
def checkCollisions (at2 : ℚ → ℚ → ℚ) (now : Nat) (trail : List BladePoint)
    (isSwiping : Bool) (st : EngineState) : EngineState :=
  if !isSwiping || trail.length < 2 then st
  else
    ((trail.zip trail.tail).drop (trail.length - 5)).foldl
      (fun acc pq =>
        let p1 := pq.1
        let p2 := pq.2
        let sliceAngle := at2 (p2.y - p1.y) (p2.x - p1.x)
        let acc1 := st.fruits.foldl
          (fun a f =>
            if !f.sliced && lineCircleIntersection p1.x p1.y p2.x p2.y
                f.x f.y (f.radius * (115/100)) then
              sliceFruit now a f sliceAngle
            else a) acc
        let acc2 := st.specialFruits.foldl
          (fun a s =>
            if lineCircleIntersection p1.x p1.y p2.x p2.y
                s.x s.y (s.radius * (12/10)) then
              sliceSpecialFruit a s
            else a) acc1
        if st.activeEffect ≠ some .frenzy then
          st.bombs.foldl
            (fun a b =>
              if !b.sliced && lineCircleIntersection p1.x p1.y p2.x p2.y
                  b.x b.y b.radius then
                sliceBomb a
              else a) acc2
        else acc2)
      st

/-- One invocation of the game loop body (the FruitNinjaGame component):
while playing, collisions are resolved against the current trail and then
the physics tick runs; in any other state the loop body does nothing. -/
def frame (at2 : ℚ → ℚ → ℚ) (W H : ℚ) (now : Nat) (trail : List BladePoint)
    (isSwiping : Bool) (rolls : UpdateRolls) (st : EngineState) : EngineState :=
  if st.gameState = GameState.playing then
    updatePhysics W H now rolls (checkCollisions at2 now trail isSwiping st)
  else st

/-- startGame (useGameEngine.ts lines 568-598).  The already-scheduled
spawn timers are not cancelled, so the pending queue survives. -/
def startGame (st : EngineState) : EngineState :=
  { st with
    activeEffect := none
    timeScale := 1
    gameState := .playing
    stats :=
      { score := 0
        lives := INITIAL_LIVES
        combo := 0
        maxCombo := 0
        fruitsSliced := 0
        highScore := st.stats.highScore }
    fruits := []
    bombs := []
    specialFruits := []
    slicedFruits := []
    lastSpawn := 0
    lastComboTime := 0
    wave := 1
    spawnsSinceSpecial := 0
    currentWave := 1
    showWaveAnnouncement := false
    criticalFlash := false }

/-- returnToMenu (useGameEngine.ts lines 600-614).  Only the effect
timer is cancelled; the scheduled spawn timers keep running. -/
def returnToMenu (st : EngineState) : EngineState :=
  { st with
    activeEffect := none
    timeScale := 1
    gameState := .menu
    fruits := []
    bombs := []
    specialFruits := []
    slicedFruits := [] }

/-- The slice of the legacy js/game.js Game object that the persistence
path touches. -/
structure GameJS where
  score : Nat
  bestScore : Nat
  storage : Storage
  deriving DecidableEq, Repr

/-- saveBestScore (js/game.js lines 314-320): the localStorage.setItem
call is wrapped in try/catch — on a storage error the function merely
logs a warning and returns, leaving the game state untouched. -/
def saveBestScore (storageOk : Bool) (g : GameJS) : GameJS :=
  match setItemE storageOk g.storage g.bestScore with
  | .ok s1 => { g with storage := s1 }
  | .error _ => g

/-- sliceFruit under fallible storage: identical to `sliceFruit` except
that the localStorage.setItem call (useGameEngine.ts line 344), which
has no try/catch around it, is the fallible `setItemE` — a storage
error aborts the handler and propagates out of the tick. -/
def sliceFruitE (storageOk : Bool) (now : Nat) (st : EngineState)
    (fruit : Fruit) (sliceAngle : ℚ) : Except Unit EngineState := do
  let timeSinceLastSlice := now - st.lastComboTime
  let isPartOfCombo :=
    timeSinceLastSlice < COMBO_WINDOW ∧ 0 < st.lastComboTime
  let basePoints := FRUIT_POINTS fruit.type
  let newCombo := if isPartOfCombo then st.stats.combo + 1 else 1
  let comboMultiplier := min newCombo 8
  let points := basePoints * comboMultiplier
  let newScore := st.stats.score + points
  let newHighScore := max newScore st.stats.highScore
  let storage1 ←
    if st.stats.highScore < newHighScore then
      setItemE storageOk st.storage newHighScore
    else pure st.storage
  let st1 :=
    { st with
      lastComboTime := now
      stats :=
        { st.stats with
          score := newScore
          combo := newCombo
          maxCombo := max newCombo st.stats.maxCombo
          fruitsSliced := st.stats.fruitsSliced + 1
          highScore := newHighScore }
      storage := storage1 }
  let st2 := createSlicedFruit now st1 fruit sliceAngle
  return { st2 with fruits := st2.fruits.filter (fun f => f.id ≠ fruit.id) }

/-- jsSqrt at 0 is exactly 0 (the only sqrt value the degenerate-segment
analysis needs). -/
theorem jsSqrt_zero : jsSqrt 0 = 0 := by
  simp [jsSqrt]

/-- A reference engine state: fresh game, three lives, empty collections,
nothing stored. -/
def baseState : EngineState :=
  { gameState := .playing
    stats :=
      { score := 0
        lives := 3
        combo := 0
        maxCombo := 0
        fruitsSliced := 0
        highScore := 0 }
    fruits := []
    bombs := []
    specialFruits := []
    slicedFruits := []
    bombFlash := false
    activeEffect := none
    timeScale := 1
    lastSpawn := 0
    lastComboTime := 0
    wave := 1
    spawnsSinceSpecial := 0
    currentWave := 1
    showWaveAnnouncement := false
    criticalFlash := false
    storage := { stored := 0, writes := [] }
    pending := []
    nextId := 1 }

/-- A concrete apple used by several concrete instances: at (100, 100),
moving straight up at 14 units per tick. -/
def cApple : Fruit :=
  { id := 5
    type := .apple
    x := 100
    y := 100
    velocityX := 0
    velocityY := -14
    rotation := 0
    rotationSpeed := 0
    radius := 35
    sliced := false }

/-- C10: for every degenerate (zero-length) trail segment the
segment-vs-circle intersection test returns no hit for every circle —
including circles containing the point — because the quadratic
coefficient a is 0, making both root divisions 0/0 = NaN, which fails
the [0,1] range test; the function is total and raises nothing. -/
theorem degenerate_segment_no_hit (x y cx cy r : ℚ) :
    lineCircleIntersection x y x y cx cy r = false := by
  simp [lineCircleIntersection, jsSqrt_zero, jdiv, jIn01]

/-- C9: slicing a special fruit adds exactly 50 points, removes that
special fruit from its live collection and activates its timed effect
(frenzy: timeScale 0.3; freeze: timeScale 0.2), while leaving lives,
combo, maxCombo, fruitsSliced and the last-slice timestamp unchanged —
it never starts, extends, or resets a fruit combo chain. -/
theorem slice_special_effects (st : EngineState) (special : SpecialFruit) :
    (sliceSpecialFruit st special).stats.score = st.stats.score + 50 ∧
    (∀ s ∈ (sliceSpecialFruit st special).specialFruits, s.id ≠ special.id) ∧
    (sliceSpecialFruit st special).stats.lives = st.stats.lives ∧
    (sliceSpecialFruit st special).stats.combo = st.stats.combo ∧
    (sliceSpecialFruit st special).stats.maxCombo = st.stats.maxCombo ∧
    (sliceSpecialFruit st special).stats.fruitsSliced = st.stats.fruitsSliced ∧
    (sliceSpecialFruit st special).lastComboTime = st.lastComboTime ∧
    (sliceSpecialFruit st special).activeEffect = some special.specialType ∧
    (sliceSpecialFruit st special).timeScale
      = (if special.specialType = .frenzy then 3/10 else 1/5) := by
  cases h : special.specialType <;>
    simp [sliceSpecialFruit, activateFrenzy, activateFreeze, h, List.mem_filter]

/-- C8 (amended): a fruit hit creates exactly two half entities at the
fruit's position, one pushed left (velocityX - 3) and one pushed right
(velocityX + 3), both with velocityY reduced by 2 (which in screen
coordinates is an extra upward impulse) and with opposite rotation spins
(-8 and 8); the hit segment's atan2 angle is stored on both halves for
rendering, but the velocity split itself is this fixed horizontal
offset, independent of the swipe direction. -/
theorem sliced_halves_shape (now : Nat) (st : EngineState) (fruit : Fruit)
    (a : ℚ) :
    ∃ lh rh : SlicedFruit,
      (createSlicedFruit now st fruit a).slicedFruits
        = st.slicedFruits ++ [lh, rh] ∧
      lh.x = fruit.x ∧ lh.y = fruit.y ∧ rh.x = fruit.x ∧ rh.y = fruit.y ∧
      lh.velocityX = fruit.velocityX - 3 ∧ rh.velocityX = fruit.velocityX + 3 ∧
      lh.velocityY = fruit.velocityY - 2 ∧ rh.velocityY = fruit.velocityY - 2 ∧
      lh.rotationSpeed = -8 ∧ rh.rotationSpeed = 8 ∧
      lh.half = Half.left ∧ rh.half = Half.right ∧
      lh.sliceAngle = a ∧ rh.sliceAngle = a := by
  exact ⟨_, _, rfl, rfl, rfl, rfl, rfl, rfl, rfl, rfl, rfl, rfl, rfl,
    rfl, rfl, rfl, rfl⟩

/-- C8 counterexample: for the concrete apple (velocity (0, -14)) hit by
the horizontal segment from (0,0) to (1,0), the two halves produced by
createSlicedFruit have velocity difference (6, 0), which is parallel to
that swipe segment, not perpendicular to it; and the left half's upward
speed is 16, exceeding the original 14, so upward velocity is not
reduced.  This refutes the claimed perpendicular split and the claimed
loss of upward velocity. -/
theorem sliced_half_velocity_counterexample :
    ∃ lh rh : SlicedFruit,
      (createSlicedFruit 0 baseState cApple 0).slicedFruits = [lh, rh] ∧
      ¬ ((rh.velocityX - lh.velocityX) * (1 - 0)
          + (rh.velocityY - lh.velocityY) * (0 - 0) = 0) ∧
      ¬ (-lh.velocityY ≤ -cApple.velocityY) := by
  refine ⟨_, _, rfl, ?_, ?_⟩ <;> norm_num [createSlicedFruit, cApple, baseState]

/-- The spawn section never touches the score state. -/
theorem spawnSection_stats (W H : ℚ) (now : Nat) (rolls : UpdateRolls)
    (st : EngineState) : (spawnSection W H now rolls st).stats = st.stats := by
  unfold spawnSection
  dsimp only
  split_ifs <;> rfl

/-- The spawn section never touches the game state. -/
theorem spawnSection_gameState (W H : ℚ) (now : Nat) (rolls : UpdateRolls)
    (st : EngineState) :
    (spawnSection W H now rolls st).gameState = st.gameState := by
  unfold spawnSection
  dsimp only
  split_ifs <;> rfl

/-- The spawn section never touches the storage slot. -/
theorem spawnSection_storage (W H : ℚ) (now : Nat) (rolls : UpdateRolls)
    (st : EngineState) :
    (spawnSection W H now rolls st).storage = st.storage := by
  unfold spawnSection
  dsimp only
  split_ifs <;> rfl

/-- Every spawn callback the spawn section schedules is unguarded. -/
theorem spawnSection_pending (W H : ℚ) (now : Nat) (rolls : UpdateRolls)
    (st : EngineState) (p : PendingSpawn)
    (hp : p ∈ (spawnSection W H now rolls st).pending) :
    p ∈ st.pending ∨ p.guardCaptured = none := by
  unfold spawnSection at hp
  dsimp only at hp
  split_ifs at hp <;>
    first
      | exact Or.inl hp
      | (simp only [spawnBomb, spawnSpecialFruit, List.mem_append,
            List.mem_map, List.mem_range] at hp
         rcases hp with hp | ⟨i, -, rfl⟩
         · exact Or.inl hp
         · exact Or.inr rfl)

/-- The documented projections of the entity-advancing passes: lives,
storage and game state follow the batched miss accounting. -/
theorem physicsPasses_stats (H : ℚ) (now : Nat) (st : EngineState) :
    ((physicsPasses H now st).stats.lives,
      (physicsPasses H now st).storage,
      (physicsPasses H now st).gameState)
    = (if 0 < missedCount H st.timeScale st.fruits then
        (if st.stats.lives - (missedCount H st.timeScale st.fruits : Int) ≤ 0 then
          (0, setItem st.storage (max st.stats.score st.stats.highScore),
            GameState.gameover)
        else
          (st.stats.lives - (missedCount H st.timeScale st.fruits : Int),
            st.storage, st.gameState))
      else (st.stats.lives, st.storage, st.gameState)) := by
  unfold physicsPasses missedCount
  dsimp only
  split_ifs <;> rfl

/-- The entity-advancing passes never touch the pending spawn queue. -/
theorem physicsPasses_pending (H : ℚ) (now : Nat) (st : EngineState) :
    (physicsPasses H now st).pending = st.pending := by
  unfold physicsPasses
  rfl

/-- C2: every fruit crossing the lower bound unsliced costs exactly one
life; M fruits missed in one tick decrement lives by M in the single
batched stats update (stated for the non-underflowing case, which the
clamping claim C4 complements); and slicing a bomb sets lives to exactly
0 and transitions to gameover, regardless of remaining lives. -/
theorem missed_fruits_and_bomb_lives (W H : ℚ) (now : Nat)
    (rolls : UpdateRolls) (st : EngineState)
    (h : (missedCount H st.timeScale st.fruits : Int) ≤ st.stats.lives) :
    (updatePhysics W H now rolls st).stats.lives
      = st.stats.lives - (missedCount H st.timeScale st.fruits : Int) ∧
    ∀ st2 : EngineState,
      (sliceBomb st2).stats.lives = 0 ∧
      (sliceBomb st2).gameState = GameState.gameover := by
  constructor
  · have hs := spawnSection_stats W H now rolls (physicsPasses H now st)
    have hp := congrArg (fun t => t.1) (physicsPasses_stats H now st)
    simp only [updatePhysics, hs] at *
    split at hp
    · split at hp <;> simp at hp <;> omega
    · simp at hp ⊢
      omega
  · intro st2
    constructor <;> rfl

/-- C4: lives are clamped at 0 (a multi-fruit miss that would go below
zero sets lives to exactly 0, so lives never go negative in a reachable
state); the tick transitions to gameover exactly when a positive number
of misses exhausts the lives, a single transition for the whole batch;
and once the game state is not 'playing' the loop body is the identity,
so the terminal transition fires at most once per run. -/
theorem lives_clamped_gameover_once :
    (∀ (W H : ℚ) (now : Nat) (rolls : UpdateRolls) (st : EngineState),
      0 ≤ st.stats.lives →
      (updatePhysics W H now rolls st).stats.lives
        = max (st.stats.lives - (missedCount H st.timeScale st.fruits : Int)) 0) ∧
    (∀ (W H : ℚ) (now : Nat) (rolls : UpdateRolls) (st : EngineState),
      (updatePhysics W H now rolls st).gameState = GameState.gameover
        ↔ st.gameState = GameState.gameover ∨
          (0 < missedCount H st.timeScale st.fruits ∧
            st.stats.lives ≤ (missedCount H st.timeScale st.fruits : Int))) ∧
    (∀ (at2 : ℚ → ℚ → ℚ) (W H : ℚ) (now : Nat) (trail : List BladePoint)
        (isSwiping : Bool) (rolls : UpdateRolls) (st : EngineState),
      st.gameState ≠ GameState.playing →
      frame at2 W H now trail isSwiping rolls st = st) := by
  refine ⟨?_, ?_, ?_⟩
  · intro W H now rolls st h0
    have hs := spawnSection_stats W H now rolls (physicsPasses H now st)
    have hp := congrArg (fun t => t.1) (physicsPasses_stats H now st)
    simp only [updatePhysics, hs] at *
    split at hp
    · split at hp <;> simp at hp <;> omega
    · simp at hp ⊢
      omega
  · intro W H now rolls st
    have hs := spawnSection_gameState W H now rolls (physicsPasses H now st)
    have hp := congrArg (fun t => t.2.2) (physicsPasses_stats H now st)
    simp only [updatePhysics, hs] at *
    split at hp
    · rename_i hmiss
      split at hp
      · rename_i hdead
        simp at hp
        rw [hp]
        constructor
        · intro _
          exact Or.inr ⟨hmiss, by omega⟩
        · intro _
          rfl
      · rename_i halive
        simp at hp
        rw [hp]
        constructor
        · intro hc
          exact Or.inl hc
        · rintro (hc | hc)
          · exact hc
          · exfalso
            omega
    · rename_i hnomiss
      simp at hp
      rw [hp]
      constructor
      · intro hc
        exact Or.inl hc
      · rintro (hc | hc)
        · exact hc
        · exfalso
          omega
  · intro at2 W H now trail isSwiping rolls st h
    unfold frame
    simp [h]

/-- A setItem leaves the storage observably changed (the write log grows),
so a write can never be confused with no write. -/
theorem setItem_ne (s : Storage) (v : Nat) : setItem s v ≠ s := by
  intro h
  have := congrArg (fun t => t.writes.length) h
  simp [setItem] at this

/-- sliceFruit persists exactly when the slice strictly raises the
in-memory high score, and then writes the new high score. -/
theorem sliceFruit_write (now : Nat) (st : EngineState) (f : Fruit) (a : ℚ) :
    ((sliceFruit now st f a).stats.highScore = st.stats.highScore ∧
      (sliceFruit now st f a).storage = st.storage) ∨
    (st.stats.highScore < (sliceFruit now st f a).stats.highScore ∧
      (sliceFruit now st f a).storage
        = setItem st.storage ((sliceFruit now st f a).stats.highScore)) := by
  unfold sliceFruit createSlicedFruit
  dsimp only
  split_ifs with hc hw hw <;>
    first
      | exact Or.inr ⟨hw, rfl⟩
      | (left
         refine ⟨?_, rfl⟩
         omega)

/-- sliceBomb persists exactly when the final score strictly exceeds the
in-memory high score, and then writes the new high score. -/
theorem sliceBomb_write (st : EngineState) :
    ((sliceBomb st).stats.highScore = st.stats.highScore ∧
      (sliceBomb st).storage = st.storage) ∨
    (st.stats.highScore < (sliceBomb st).stats.highScore ∧
      (sliceBomb st).storage = setItem st.storage ((sliceBomb st).stats.highScore)) := by
  unfold sliceBomb
  dsimp only
  split_ifs with hw
  · right
    exact ⟨hw, rfl⟩
  · left
    refine ⟨?_, rfl⟩
    omega

/-- The physics tick either performs no write, or (in the miss-driven
game-over branch) writes max(score, highScore) unconditionally. -/
theorem updatePhysics_write (W H : ℚ) (now : Nat) (rolls : UpdateRolls)
    (st : EngineState) :
    (updatePhysics W H now rolls st).storage = st.storage ∨
    (updatePhysics W H now rolls st).storage
      = setItem st.storage (max st.stats.score st.stats.highScore) := by
  have hs := spawnSection_storage W H now rolls (physicsPasses H now st)
  have hp := congrArg (fun t => t.2.1) (physicsPasses_stats H now st)
  simp only [updatePhysics, hs]
  split at hp
  · split at hp
    · simp at hp
      exact Or.inr hp
    · simp at hp
      exact Or.inl hp
  · simp at hp
    exact Or.inl hp

/-- C3 counterexample: with score 0, one remaining life, high score 5
already stored, and a single fruit falling past the lower bound, the
miss-driven game-over tick performs a persistence write whose value (5)
equals the already-stored high score even though the score (0) does not
exceed it — refuting the claim that an equal-valued write never occurs. -/
def c3Fruit : Fruit :=
  { id := 1
    type := .apple
    x := 0
    y := 1000
    velocityX := 0
    velocityY := 0
    rotation := 0
    rotationSpeed := 0
    radius := 35
    sliced := false }

/-- Engine state for the C3 counterexample: one life left, score 0,
high score 5 both in memory and in storage, one doomed fruit. -/
def c3State : EngineState :=
  { baseState with
    stats :=
      { score := 0
        lives := 1
        combo := 0
        maxCombo := 0
        fruitsSliced := 0
        highScore := 5 }
    storage := { stored := 5, writes := [] }
    fruits := [c3Fruit] }

/-- Rolls that trigger neither a critical throw, nor a bomb, nor a
special fruit. -/
def cRolls : UpdateRolls :=
  { rCrit := 1
    rCritCount := 0
    rFruitCount := 0
    rBomb := 1
    rSpecial := 1
    bombRand := fun _ => 0
    specialRand := fun _ => 0 }

/-- C3 is refuted: the miss-driven game-over tick writes the value 5,
which equals the previously stored high score, while the score 0 does
not strictly exceed it. -/
theorem highscore_equal_write_counterexample :
    (updatePhysics 800 600 0 cRolls c3State).storage.writes = [5] ∧
    c3State.storage.stored = 5 ∧
    c3State.storage.writes = [] ∧
    c3State.stats.score = 0 ∧
    c3State.stats.highScore = 5 := by
  refine ⟨?_, rfl, rfl, rfl, rfl⟩
  norm_num [updatePhysics, physicsPasses, spawnSection, missedCount,
    stepFruit, fruitMissed, setItem, GRAVITY, SPAWN_INTERVAL_BASE,
    SPAWN_INTERVAL_MIN, SLICED_FRUIT_LIFETIME, CRITICAL_THROW_CHANCE,
    SPECIAL_FRUIT_CHANCE, SPECIAL_FRUIT_MIN_WAVE,
    GUARANTEED_SPECIAL_INTERVAL, BOMB_CHANCE_BASE, BOMB_CHANCE_MAX,
    c3State, c3Fruit, baseState, cRolls, spawnBomb, spawnSpecialFruit,
    List.filter]

/-- C3 (amended): the fruit-slice and bomb-slice paths persist the high
score exactly when the new score strictly exceeds the in-memory high
score, writing the new high score; the miss-driven game-over path
instead writes unconditionally, with value max(score, highScore) — which
can equal the already-stored value; and no path ever lowers the stored
high score (it is monotone whenever the in-memory high score is at least
the stored one). -/
theorem highscore_write_policy :
    (∀ (now : Nat) (st : EngineState) (f : Fruit) (a : ℚ),
      ((sliceFruit now st f a).stats.highScore = st.stats.highScore ∧
        (sliceFruit now st f a).storage = st.storage) ∨
      (st.stats.highScore < (sliceFruit now st f a).stats.highScore ∧
        (sliceFruit now st f a).storage
          = setItem st.storage ((sliceFruit now st f a).stats.highScore))) ∧
    (∀ st : EngineState,
      ((sliceBomb st).stats.highScore = st.stats.highScore ∧
        (sliceBomb st).storage = st.storage) ∨
      (st.stats.highScore < (sliceBomb st).stats.highScore ∧
        (sliceBomb st).storage
          = setItem st.storage ((sliceBomb st).stats.highScore))) ∧
    (∀ (W H : ℚ) (now : Nat) (rolls : UpdateRolls) (st : EngineState),
      (updatePhysics W H now rolls st).storage = st.storage ∨
      (updatePhysics W H now rolls st).storage
        = setItem st.storage (max st.stats.score st.stats.highScore)) ∧
    (∀ (now : Nat) (st : EngineState) (f : Fruit) (a : ℚ),
      st.storage.stored ≤ st.stats.highScore →
      st.storage.stored ≤ (sliceFruit now st f a).storage.stored) ∧
    (∀ st : EngineState,
      st.storage.stored ≤ st.stats.highScore →
      st.storage.stored ≤ (sliceBomb st).storage.stored) ∧
    (∀ (W H : ℚ) (now : Nat) (rolls : UpdateRolls) (st : EngineState),
      st.storage.stored ≤ st.stats.highScore →
      st.storage.stored ≤ (updatePhysics W H now rolls st).storage.stored) := by
  refine ⟨sliceFruit_write, sliceBomb_write, updatePhysics_write, ?_, ?_, ?_⟩
  · intro now st f a h
    rcases sliceFruit_write now st f a with ⟨-, hst⟩ | ⟨hlt, hst⟩
    · rw [hst]
    · rw [hst]
      simp only [setItem]
      omega
  · intro st h
    rcases sliceBomb_write st with ⟨-, hst⟩ | ⟨hlt, hst⟩
    · rw [hst]
    · rw [hst]
      simp only [setItem]
      omega
  · intro W H now rolls st h
    rcases updatePhysics_write W H now rolls st with hst | hst
    · rw [hst]
    · rw [hst]
      simp only [setItem]
      omega

/-- C3 amended-claim witness: the monotonicity clauses applied at a
concrete state where the in-memory high score matches the stored one. -/
theorem highscore_write_policy_witness :
    c3State.storage.stored ≤ c3State.stats.highScore ∧
    c3State.storage.stored
      ≤ (updatePhysics 800 600 0 cRolls c3State).storage.stored ∧
    c3State.storage.stored ≤ (sliceBomb c3State).storage.stored := by
  refine ⟨by norm_num [c3State, baseState], ?_, ?_⟩
  · exact highscore_write_policy.2.2.2.2.2 800 600 0 cRolls c3State
      (by norm_num [c3State, baseState])
  · exact highscore_write_policy.2.2.2.2.1 c3State
      (by norm_num [c3State, baseState])

/-- A fruit slice whose gap from the previous slice is inside the combo
window extends the chain: combo increments, the timestamp advances, and
the score grows by basePoints times the capped multiplier. -/
theorem sliceFruit_stats_chain (now : Nat) (st : EngineState) (f : Fruit)
    (a : ℚ) (h1 : 0 < st.lastComboTime)
    (h2 : now - st.lastComboTime < COMBO_WINDOW) :
    (sliceFruit now st f a).stats.combo = st.stats.combo + 1 ∧
    (sliceFruit now st f a).lastComboTime = now ∧
    (sliceFruit now st f a).stats.score
      = st.stats.score + FRUIT_POINTS f.type * min (st.stats.combo + 1) 8 := by
  unfold sliceFruit createSlicedFruit
  dsimp only
  rw [if_pos ⟨h2, h1⟩]
  exact ⟨rfl, rfl, rfl⟩

/-- A fruit slice at or beyond the combo window (or with no previous
slice) resets the chain: combo becomes 1 and the fruit scores its plain
base value. -/
theorem sliceFruit_stats_reset (now : Nat) (st : EngineState) (f : Fruit)
    (a : ℚ)
    (h : st.lastComboTime = 0 ∨ COMBO_WINDOW ≤ now - st.lastComboTime) :
    (sliceFruit now st f a).stats.combo = 1 ∧
    (sliceFruit now st f a).lastComboTime = now ∧
    (sliceFruit now st f a).stats.score
      = st.stats.score + FRUIT_POINTS f.type * 1 := by
  have hneg : ¬(now - st.lastComboTime < COMBO_WINDOW ∧ 0 < st.lastComboTime) := by
    rcases h with h | h <;> omega
  unfold sliceFruit createSlicedFruit
  dsimp only
  rw [if_neg hneg]
  refine ⟨rfl, rfl, ?_⟩
  norm_num

/-- A run of fruit slices at the given times: slice k happens at time
t k on the fruit fr k. -/
def runSlices (t : Nat → Nat) (fr : Nat → Fruit) (st : EngineState) :
    Nat → EngineState
  | 0 => st
  | k + 1 => sliceFruit (t k) (runSlices t fr st k) (fr k) 0

/-- Invariant of a combo run: starting from a reset condition, with all
inter-slice gaps strictly inside the combo window, the k-th slice sees
combo k, timestamp t (k-1), and scores base times min(k, 8). -/
theorem runSlices_invariant (t : Nat → Nat) (fr : Nat → Fruit)
    (st : EngineState)
    (h0 : st.lastComboTime = 0 ∨ st.lastComboTime + COMBO_WINDOW ≤ t 0)
    (ht0 : 0 < t 0)
    (hgap : ∀ k, t k < t (k + 1) ∧ t (k + 1) < t k + COMBO_WINDOW) :
    ∀ k, (runSlices t fr st (k + 1)).stats.combo = k + 1 ∧
      (runSlices t fr st (k + 1)).lastComboTime = t k ∧
      (runSlices t fr st (k + 1)).stats.score
        = (runSlices t fr st k).stats.score
          + FRUIT_POINTS (fr k).type * min (k + 1) 8 := by
  have hpos : ∀ k, 0 < t k := by
    intro k
    induction k with
    | zero => exact ht0
    | succ n ih => exact Nat.lt_trans ih (hgap n).1
  intro k
  induction k with
  | zero =>
    have hreset : (runSlices t fr st 0).lastComboTime = 0 ∨
        COMBO_WINDOW ≤ t 0 - (runSlices t fr st 0).lastComboTime := by
      rcases h0 with h | h
      · exact Or.inl h
      · exact Or.inr (by simp only [runSlices]; omega)
    obtain ⟨hc, hl, hs⟩ := sliceFruit_stats_reset (t 0) st (fr 0) 0
      (by simpa [runSlices] using hreset)
    refine ⟨hc, hl, ?_⟩
    simpa [runSlices] using hs
  | succ n ih =>
    obtain ⟨ihc, ihl, -⟩ := ih
    have h1 : 0 < (runSlices t fr st (n + 1)).lastComboTime := by
      rw [ihl]
      exact hpos n
    have h2 : t (n + 1) - (runSlices t fr st (n + 1)).lastComboTime
        < COMBO_WINDOW := by
      rw [ihl]
      have := hgap n
      omega
    obtain ⟨hc, hl, hs⟩ := sliceFruit_stats_chain (t (n + 1))
      (runSlices t fr st (n + 1)) (fr (n + 1)) 0 h1 h2
    refine ⟨?_, ?_, ?_⟩
    · show (sliceFruit (t (n + 1)) (runSlices t fr st (n + 1)) (fr (n + 1)) 0).stats.combo
        = n + 1 + 1
      rw [hc, ihc]
    · exact hl
    · show (sliceFruit (t (n + 1)) (runSlices t fr st (n + 1)) (fr (n + 1)) 0).stats.score
        = (runSlices t fr st (n + 1)).stats.score
          + FRUIT_POINTS (fr (n + 1)).type * min (n + 1 + 1) 8
      rw [hs, ihc]

/-- C1: in a run of consecutive fruit slices that starts from a combo
reset and whose inter-slice gaps are all strictly inside the 800 ms
combo window, the k-th slice sets the combo counter to k and adds
basePoints times min(k, 8) to the score (so the applied multiplier is
the capped combo); and a slice whose gap from the previous slice
exceeds the combo window resets the combo counter to 1. -/
theorem combo_run_multiplier (t : Nat → Nat) (fr : Nat → Fruit)
    (st : EngineState)
    (h0 : st.lastComboTime = 0 ∨ st.lastComboTime + COMBO_WINDOW ≤ t 0)
    (ht0 : 0 < t 0)
    (hgap : ∀ k, t k < t (k + 1) ∧ t (k + 1) < t k + COMBO_WINDOW) :
    (∀ k,
      (runSlices t fr st (k + 1)).stats.combo = k + 1 ∧
      (runSlices t fr st (k + 1)).stats.score
        = (runSlices t fr st k).stats.score
          + FRUIT_POINTS (fr k).type * min (k + 1) 8) ∧
    (∀ (st2 : EngineState) (now : Nat) (f : Fruit) (a : ℚ),
      st2.lastComboTime + COMBO_WINDOW < now →
      (sliceFruit now st2 f a).stats.combo = 1) := by
  constructor
  · intro k
    obtain ⟨hc, -, hs⟩ := runSlices_invariant t fr st h0 ht0 hgap k
    exact ⟨hc, hs⟩
  · intro st2 now f a h
    obtain ⟨hc, -, -⟩ := sliceFruit_stats_reset now st2 f a (Or.inr (by omega))
    exact hc

/-- C1 witness: three slices 100 ms apart from the fresh state reach
combo 3, and the third slice scores base times min(3, 8). -/
theorem combo_run_multiplier_witness :
    (runSlices (fun k => 100 + 100 * k) (fun _ => cApple) baseState 3).stats.combo
      = 3 ∧
    (runSlices (fun k => 100 + 100 * k) (fun _ => cApple) baseState 3).stats.score
      = (runSlices (fun k => 100 + 100 * k) (fun _ => cApple) baseState 2).stats.score
        + FRUIT_POINTS cApple.type * min 3 8 := by
  have h := combo_run_multiplier (fun k => 100 + 100 * k) (fun _ => cApple)
    baseState (Or.inl rfl) (by norm_num)
    (fun k => by
      constructor
      · show 100 + 100 * k < 100 + 100 * (k + 1)
        omega
      · show 100 + 100 * (k + 1) < 100 + 100 * k + COMBO_WINDOW
        simp only [COMBO_WINDOW]
        omega)
  exact ⟨(h.1 2).1, (h.1 2).2⟩

/-- Engine state for the C2 witness: the fresh state with one fruit
about to fall past the lower bound. -/
def c2State : EngineState := { baseState with fruits := [c3Fruit] }

/-- C2 witness: in the concrete state one fruit is missed, which is at
most the three lives, and the tick decrements lives by exactly that
count. -/
theorem missed_fruits_and_bomb_lives_witness :
    (missedCount 600 c2State.timeScale c2State.fruits : Int)
      ≤ c2State.stats.lives ∧
    (updatePhysics 800 600 0 cRolls c2State).stats.lives
      = c2State.stats.lives
        - (missedCount 600 c2State.timeScale c2State.fruits : Int) := by
  have hm : (missedCount 600 c2State.timeScale c2State.fruits : Int)
      ≤ c2State.stats.lives := by
    norm_num [missedCount, stepFruit, fruitMissed, c2State, c3Fruit,
      baseState, GRAVITY, List.filter]
  exact ⟨hm, (missed_fruits_and_bomb_lives 800 600 0 cRolls c2State hm).1⟩

/-- Engine state for the C4 witness: the spec scenario of three fruits
all falling unsliced past the bottom bound with three lives left. -/
def c4State : EngineState :=
  { baseState with
    fruits := [c3Fruit, { c3Fruit with id := 2 }, { c3Fruit with id := 3 }] }

/-- C4 witness: the three-miss tick clamps lives at 0 and transitions to
gameover, and the loop body is the identity on the resulting
non-playing state, so the transition cannot fire again. -/
theorem lives_clamped_gameover_once_witness :
    0 ≤ c4State.stats.lives ∧
    (updatePhysics 800 600 0 cRolls c4State).stats.lives
      = max (c4State.stats.lives
          - (missedCount 600 c4State.timeScale c4State.fruits : Int)) 0 ∧
    ((updatePhysics 800 600 0 cRolls c4State).gameState = GameState.gameover
      ↔ c4State.gameState = GameState.gameover ∨
        (0 < missedCount 600 c4State.timeScale c4State.fruits ∧
          c4State.stats.lives
            ≤ (missedCount 600 c4State.timeScale c4State.fruits : Int))) ∧
    ({ c4State with gameState := GameState.gameover }).gameState
      ≠ GameState.playing ∧
    frame (fun _ _ => 0) 800 600 0 [] true cRolls
        { c4State with gameState := GameState.gameover }
      = { c4State with gameState := GameState.gameover } := by
  refine ⟨by norm_num [c4State, baseState],
    lives_clamped_gameover_once.1 800 600 0 cRolls c4State
      (by norm_num [c4State, baseState]),
    lives_clamped_gameover_once.2.1 800 600 0 cRolls c4State,
    by simp, ?_⟩
  exact lives_clamped_gameover_once.2.2 (fun _ _ => 0) 800 600 0 [] true cRolls
    { c4State with gameState := GameState.gameover } (by simp)

/-- Fruit for the C5 failing input: centered at (1,1) with radius 20/23,
so its enlarged hitbox radius is exactly (20/23)·1.15 = 1 and the
horizontal trail y = 0 is tangent to the hitbox (discriminant 0). -/
def c5Fruit : Fruit :=
  { id := 1
    type := .apple
    x := 1
    y := 1
    velocityX := 0
    velocityY := 0
    rotation := 0
    rotationSpeed := 0
    radius := 20/23
    sliced := false }

/-- Trail for the C5 failing input: three collinear points whose two
segments both touch the fruit's hitbox. -/
def c5Trail : List BladePoint :=
  [{ x := 0, y := 0, timestamp := 0 },
   { x := 1, y := 0, timestamp := 0 },
   { x := 2, y := 0, timestamp := 0 }]

/-- Engine state for the C5 failing input: the fresh state with the one
unsliced fruit. -/
def c5State : EngineState := { baseState with fruits := [c5Fruit] }

set_option maxHeartbeats 1000000 in
/-- C5 failing input evaluated: one unsliced fruit intersected by two
consecutive trail segments of a single collision pass is resolved twice
— fruitsSliced rises by 2, the second resolution even chains the combo
(score 1 + 2 = 3), and four half entities are created — because the
sliced flag that checkCollisions reads is never set and the captured
fruit array does not change during the pass.  The claim (and the spec
invariant) say such an entity is resolved at most once. -/
theorem double_slice_same_pass :
    (checkCollisions (fun _ _ => 0) 1000 c5Trail true c5State).stats.fruitsSliced
      = 2 ∧
    (checkCollisions (fun _ _ => 0) 1000 c5Trail true c5State).stats.score = 3 ∧
    (checkCollisions (fun _ _ => 0) 1000 c5Trail true c5State).slicedFruits.length
      = 4 ∧
    c5State.fruits.length = 1 := by
  refine ⟨?_, ?_, ?_, rfl⟩ <;>
    norm_num [checkCollisions, lineCircleIntersection, jsSqrt_zero, jdiv,
      jIn01, sliceFruit, createSlicedFruit, setItem, COMBO_WINDOW,
      FRUIT_POINTS, c5State, c5Fruit, c5Trail, baseState, List.filter]

/-- Rolls for the C6 counterexample: the critical-throw branch fires
(rCrit = 0 < 0.12), no bomb, no special fruit. -/
def c6Rolls : UpdateRolls :=
  { rCrit := 0
    rCritCount := 0
    rFruitCount := 0
    rBomb := 1
    rSpecial := 1
    bombRand := fun _ => 0
    specialRand := fun _ => 0 }

/-- C6 counterexample: the spawn tick schedules the critical-throw batch
as unguarded callbacks; after returning to the menu (which clears the
fruit list but cannot cancel those timers), firing one of them still
appends a fruit even though the game state is 'menu' — refuting the
claim that every deferred spawn checks the game state before mutating
the fruit collection. -/
theorem unguarded_spawn_counterexample :
    ({ delay := 0, guardCaptured := none } : PendingSpawn)
      ∈ (updatePhysics 800 600 2000 c6Rolls baseState).pending ∧
    (returnToMenu (updatePhysics 800 600 2000 c6Rolls baseState)).gameState
      = GameState.menu ∧
    (returnToMenu (updatePhysics 800 600 2000 c6Rolls baseState)).fruits = [] ∧
    (firePendingSpawn (fun _ => 0) 800 600
        { delay := 0, guardCaptured := none }
        (returnToMenu (updatePhysics 800 600 2000 c6Rolls baseState))).fruits.length
      = 1 := by
  refine ⟨?_, ?_, ?_, ?_⟩ <;>
    norm_num [updatePhysics, physicsPasses, spawnSection, missedCount,
      firePendingSpawn, spawnFruit, returnToMenu, baseState, c6Rolls,
      SPAWN_INTERVAL_BASE, SPAWN_INTERVAL_MIN, CRITICAL_THROW_CHANCE,
      SPECIAL_FRUIT_CHANCE, SPECIAL_FRUIT_MIN_WAVE,
      GUARANTEED_SPECIAL_INTERVAL, BOMB_CHANCE_BASE, BOMB_CHANCE_MAX,
      List.range_succ, List.filter] <;>
    try simp

/-- C6 (amended): only the frenzy-burst callbacks guard their spawn, and
they test the game state captured when they were scheduled rather than
the state at firing time; the batch callbacks scheduled by updatePhysics
perform no check at all and append a fruit whenever they fire, whatever
the current game state is. -/
theorem deferred_spawn_guard_policy :
    (∀ (r : Nat → ℚ) (W H : ℚ) (st : EngineState) (p : PendingSpawn),
      p.guardCaptured = none →
      (firePendingSpawn r W H p st).fruits.length = st.fruits.length + 1) ∧
    (∀ (r : Nat → ℚ) (W H : ℚ) (st : EngineState) (p : PendingSpawn)
        (s : GameState),
      p.guardCaptured = some s → s ≠ GameState.playing →
      firePendingSpawn r W H p st = st) ∧
    (∀ (st : EngineState) (p : PendingSpawn),
      p ∈ (activateFrenzy st).pending →
      p ∈ st.pending ∨ p.guardCaptured = some st.gameState) ∧
    (∀ (W H : ℚ) (now : Nat) (rolls : UpdateRolls) (st : EngineState)
        (p : PendingSpawn),
      p ∈ (updatePhysics W H now rolls st).pending →
      p ∈ st.pending ∨ p.guardCaptured = none) := by
  refine ⟨?_, ?_, ?_, ?_⟩
  · intro r W H st p hp
    simp [firePendingSpawn, hp, spawnFruit]
  · intro r W H st p s hp hs
    simp [firePendingSpawn, hp, hs]
  · intro st p hp
    simp only [activateFrenzy, List.mem_append, List.mem_map,
      List.mem_range] at hp
    rcases hp with hp | ⟨i, -, rfl⟩
    · exact Or.inl hp
    · exact Or.inr rfl
  · intro W H now rolls st p hp
    rcases spawnSection_pending W H now rolls (physicsPasses H now st) p hp
      with h | h
    · rw [physicsPasses_pending] at h
      exact Or.inl h
    · exact Or.inr h

/-- C6 amended-claim witness: an unguarded callback fired in the fresh
state adds a fruit, and a callback that captured the 'menu' state does
nothing when fired. -/
theorem deferred_spawn_guard_policy_witness :
    (firePendingSpawn (fun _ => 0) 800 600
        { delay := 60, guardCaptured := none } baseState).fruits.length
      = baseState.fruits.length + 1 ∧
    firePendingSpawn (fun _ => 0) 800 600
        { delay := 0, guardCaptured := some GameState.menu } baseState
      = baseState ∧
    ((⟨0, some GameState.playing⟩ : PendingSpawn) ∈ baseState.pending ∨
      (⟨0, some GameState.playing⟩ : PendingSpawn).guardCaptured
        = some baseState.gameState) := by
  refine ⟨deferred_spawn_guard_policy.1 (fun _ => 0) 800 600 baseState
      { delay := 60, guardCaptured := none } rfl,
    deferred_spawn_guard_policy.2.1 (fun _ => 0) 800 600 baseState
      { delay := 0, guardCaptured := some GameState.menu } GameState.menu rfl
      (by decide), ?_⟩
  refine deferred_spawn_guard_policy.2.2.1 baseState
    ⟨0, some GameState.playing⟩ ?_
  simp only [activateFrenzy, baseState, List.nil_append, List.mem_map,
    List.mem_range]
  exact ⟨0, by norm_num, rfl⟩

/-- C7 counterexample: with failing storage, slicing the first fruit of
a fresh game (whose score 1 exceeds the stored high score 0) reaches the
unguarded localStorage.setItem in the React engine's sliceFruit, and the
error propagates out of the handler instead of being swallowed —
refuting the claim that every high-score write path catches storage
failures and that tick functions never throw. -/
theorem storage_failure_throws_counterexample :
    sliceFruitE false 100 baseState cApple 0 = .error () := by
  norm_num [sliceFruitE, setItemE, baseState, cApple, FRUIT_POINTS,
    COMBO_WINDOW, Bind.bind, Except.bind]

/-- setItemE with working storage performs the write. -/
theorem setItemE_true (s : Storage) (v : Nat) :
    setItemE true s v = .ok (setItem s v) := rfl

/-- setItemE with failing storage raises. -/
theorem setItemE_false (s : Storage) (v : Nat) :
    setItemE false s v = .error () := rfl

/-- C7 (amended): the legacy js/game.js saveBestScore wraps its write in
try/catch, so a storage failure leaves the game state untouched and
never propagates; the React engine's sliceFruit write path is unguarded
— with working storage it behaves exactly like the pure handler, and
with failing storage it throws precisely when a write is attempted
(the other engine write sites use the same unguarded setItem). -/
theorem storage_failure_handling :
    (∀ g : GameJS, saveBestScore false g = g) ∧
    (∀ (ok : Bool) (g : GameJS),
      (saveBestScore ok g).score = g.score ∧
      (saveBestScore ok g).bestScore = g.bestScore) ∧
    (∀ (now : Nat) (st : EngineState) (f : Fruit) (a : ℚ),
      sliceFruitE true now st f a = .ok (sliceFruit now st f a)) ∧
    (∀ (now : Nat) (st : EngineState) (f : Fruit) (a : ℚ),
      sliceFruitE false now st f a = .error ()
        ↔ (sliceFruit now st f a).storage ≠ st.storage) := by
  refine ⟨?_, ?_, ?_, ?_⟩
  · intro g
    simp [saveBestScore, setItemE]
  · intro ok g
    cases ok <;> simp [saveBestScore, setItemE, setItem]
  · intro now st f a
    unfold sliceFruitE sliceFruit createSlicedFruit
    simp only [setItemE_true]
    split_ifs <;> rfl
  · intro now st f a
    unfold sliceFruitE sliceFruit createSlicedFruit
    simp only [setItemE_false]
    split_ifs <;> constructor
    · intro _
      exact setItem_ne st.storage _
    · intro _
      rfl
    · intro h
      exact Except.noConfusion h
    · intro h
      exact absurd rfl h
    · intro _
      exact setItem_ne st.storage _
    · intro _
      rfl
    · intro h
      exact Except.noConfusion h
    · intro h
      exact absurd rfl h

end FruitNinjaCV
